import Mathlib

/-
Verification of `scripts/ci/pre_commit/check_deferrable_default.py`.

The script parses Python source files, walks every `__init__` definition with
an `ast.NodeTransformer`, pairs the reversed parameter list with the reversed
default list, records a violation for every `deferrable` parameter whose
default is missing or differs from the canonical expression, and (when it
believes the violation fixable) overwrites a slot of the appropriate default
list with a freshly parsed copy of the canonical expression, rewriting the
file when anything was changed.  The driver sums the violations over all
scanned files and returns that count as the process exit code.

The embedding below mirrors the script at the AST level: a default
expression is represented by its canonical unparsed text together with its
source line, which is exactly the information the script consumes
(`ast.unparse` comparison, line numbers for reports, node replacement).
-/

namespace CheckDeferrableDefault

/-- A parameter node (`ast.arg`): its name and source line. -/
structure Arg where
  arg : String
  lineno : Nat
deriving DecidableEq, Repr

/-- A default-value expression, represented by its canonical unparsed text
(the result of `ast.unparse`) and its source line. -/
structure DExpr where
  form : String
  lineno : Nat
deriving DecidableEq, Repr

/-- The `ast.arguments` record of a function definition.  `defaults` holds
the defaults of the trailing positional parameters (positional-only and
plain positional combined); `kw_defaults` has one entry per keyword-only
parameter, `none` when that parameter has no default. -/
structure Arguments where
  posonlyargs : List Arg
  args : List Arg
  kwonlyargs : List Arg
  kw_defaults : List (Option DExpr)
  defaults : List DExpr
deriving DecidableEq, Repr

/-- The canonical expected default expression, as a string
(`DefaultDeferrableTransformer.EXPECTED_DEFAULT`). -/
def EXPECTED_DEFAULT : String :=
  "conf.getboolean(\x27operators\x27, \x27default_deferrable\x27, fallback=False)"

/-- `_is_valid_deferrable_default`: the canonical unparsed text of the
default must equal the expected string exactly. -/
def _is_valid_deferrable_default (d : DExpr) : Bool :=
  d.form == EXPECTED_DEFAULT

/-- `itertools.zip_longest` on two lists, padding the shorter with `none`. -/
def zipLongest : List α → List β → List (Option α × Option β)
  | [], ys => ys.map (fun y => (none, some y))
  | x :: xs, [] => (some x, none) :: zipLongest xs []
  | x :: xs, y :: ys => (some x, some y) :: zipLongest xs ys

/-- The pair list the script iterates:
`zip_longest(reversed([*args.args, *args.posonlyargs, *args.kwonlyargs]),
reversed([*args.defaults, *args.kw_defaults]))`.
Note the source concatenates `args` before `posonlyargs`. -/
def codePairs (a : Arguments) : List (Option Arg × Option (Option DExpr)) :=
  zipLongest ((a.args ++ a.posonlyargs ++ a.kwonlyargs).reverse)
    ((a.defaults.map some ++ a.kw_defaults).reverse)

/-- Keep the latest error index (`error_arg_index` is reassigned, so the
last violating occurrence wins). -/
def lastIdx (old : Option Nat) (i : Nat) : Option Nat :=
  match old with
  | some j => some j
  | none => some i

/-- The scanning loop of `visit_FunctionDef`: walks the pair list with its
enumeration index, collecting `error_linenos` in order and the final
`error_arg_index` (`none` standing for the sentinel `-1`).  A pair whose
argument is absent or not named `deferrable` is skipped; a missing default
(zip padding or a `None` entry of `kw_defaults`) records the line of the
parameter; a non-canonical default records the line of the default. -/
def scanLoop : Nat → List (Option Arg × Option (Option DExpr)) → List Nat × Option Nat
  | _, [] => ([], none)
  | i, (a?, d?) :: rest =>
    let r := scanLoop (i + 1) rest
    match a? with
    | none => r
    | some argument =>
      if argument.arg = "deferrable" then
        match d? with
        | none => (argument.lineno :: r.1, lastIdx r.2 i)
        | some none => (argument.lineno :: r.1, lastIdx r.2 i)
        | some (some d) =>
          if _is_valid_deferrable_default d then r
          else (d.lineno :: r.1, lastIdx r.2 i)
      else r

/-- Result of the scanning loop on the arguments of a constructor. -/
def scanResult (a : Arguments) : List Nat × Option Nat :=
  scanLoop 0 (codePairs a)

/-- Python list-item assignment `l[i] = v` with negative-index semantics:
`none` models the `IndexError` raised when the index is out of range. -/
def pySet (l : List α) (i : Int) (v : α) : Option (List α) :=
  let j : Int := if i < 0 then i + l.length else i
  if 0 ≤ j ∧ j < (l.length : Int) then some (l.set j.toNat v) else none

/-- Failure modes of the transformer itself (beyond I/O and parsing, which
happen before the tree is handed to it). -/
inductive ScanErr where
  | indexError
deriving DecidableEq, Repr

/-- The body of `visit_FunctionDef` for a node named `__init__`: run the
scanning loop; if a violation was found and
`error_arg_index > len(defaults) + len(kw_defaults)` the node is returned
unchanged (unfixable); otherwise the slot selected by the index
arithmetic is overwritten with a freshly parsed copy of the canonical
expression (line 1, as `ast.parse` assigns) and the node is marked fixed.
Returns the (possibly rewritten) arguments, the recorded error lines, and
the `fixed` flag. -/
def visitInit (a : Arguments) : Except ScanErr (Arguments × List Nat × Bool) :=
  let r := scanResult a
  match r.2 with
  | none => .ok (a, r.1, false)
  | some i =>
    let kwLen : Nat := a.kw_defaults.length
    let dLen : Nat := a.defaults.length
    if (i : Int) > (dLen : Int) + (kwLen : Int) then
      .ok (a, r.1, false)
    else
      let expected : DExpr := ⟨EXPECTED_DEFAULT, 1⟩
      if (i : Int) > (kwLen : Int) - 1 then
        let newIndex : Int := -((i : Int) - (kwLen : Int) + 1)
        match pySet a.defaults (-(1 + newIndex)) expected with
        | none => .error .indexError
        | some ds => .ok ({ a with defaults := ds }, r.1, true)
      else
        match pySet a.kw_defaults (-(1 + (i : Int))) (some expected) with
        | none => .error .indexError
        | some ks => .ok ({ a with kw_defaults := ks }, r.1, true)

mutual
/-- A Python statement, restricted to the node kinds the traversal
distinguishes: function definitions (with their arguments and body),
class definitions (with their body), and anything else without children. -/
inductive Stmt where
  | functionDef (name : String) (args : Arguments) (body : StmtList)
  | classDef (name : String) (body : StmtList)
  | passStmt

/-- A list of statements (a module or a class/function body). -/
inductive StmtList where
  | nil
  | cons (head : Stmt) (tail : StmtList)
end

mutual
/-- `NodeTransformer.visit` on one statement.  `visit_FunctionDef` handles
every function definition and never calls `generic_visit`, so the body of a
function definition is not traversed; class definitions fall to
`generic_visit`, which rebuilds the node from its visited children. -/
def visitStmt : Stmt → Except ScanErr (Stmt × List Nat × Bool)
  | .functionDef n a body =>
    if n = "__init__" then
      match visitInit a with
      | .error e => .error e
      | .ok (a2, errs, fx) => .ok (.functionDef n a2 body, errs, fx)
    else .ok (.functionDef n a body, [], false)
  | .classDef n body =>
    match visitStmts body with
    | .error e => .error e
    | .ok (b2, errs, fx) => .ok (.classDef n b2, errs, fx)
  | .passStmt => .ok (.passStmt, [], false)

/-- Visit a statement list in order, concatenating the recorded error lines
and or-ing the `fixed` flags; an exception aborts the traversal. -/
def visitStmts : StmtList → Except ScanErr (StmtList × List Nat × Bool)
  | .nil => .ok (.nil, [], false)
  | .cons s rest =>
    match visitStmt s with
    | .error e => .error e
    | .ok (s2, errs, fx) =>
      match visitStmts rest with
      | .error e => .error e
      | .ok (r2, errs2, fx2) => .ok (.cons s2 r2, errs ++ errs2, fx || fx2)
end

/-- `iter_check_deferrable_default_errors` on an already parsed module:
runs the transformer, rewrites the file (returned as `some` rewritten tree)
exactly when the transformer set `fixed`, and yields one
`filename:lineno` string per recorded violation. -/
def iter_check_deferrable_default_errors (filename : String) (m : StmtList) :
    Except ScanErr (List String × Option StmtList) :=
  match visitStmts m with
  | .error e => .error e
  | .ok (m2, errs, fx) =>
    .ok (errs.map (fun l => filename ++ ":" ++ toString l), if fx then some m2 else none)

/-- The error-collection comprehension of `main`: scan each module in order
and concatenate the yielded error strings, propagating any exception. -/
def collectErrors : List (String × StmtList) → Except ScanErr (List String)
  | [] => .ok []
  | (fn, m) :: rest =>
    match iter_check_deferrable_default_errors fn m with
    | .error e => .error e
    | .ok (errs, _) =>
      match collectErrors rest with
      | .error e => .error e
      | .ok es => .ok (errs ++ es)

/-- `main` over a given list of (filename, parsed module) pairs: its return
value, `len(errors)`, is passed to `sys.exit` and is the process exit code. -/
def mainResult (ms : List (String × StmtList)) : Except ScanErr Nat :=
  (collectErrors ms).map List.length

/-- Declaration-order parameter/default pairing, following the words of the
spec (and the rule of the source language itself): positional defaults attach to the
trailing positional parameters of `posonlyargs ++ args` in declaration
order, and keyword-only defaults pair one-to-one with keyword-only
parameters.  This is the reference pairing the scan is compared against. -/
def declParams (a : Arguments) : List (Arg × Option DExpr) :=
  let pos := a.posonlyargs ++ a.args
  let pad := pos.length - a.defaults.length
  pos.zip (List.replicate pad none ++ a.defaults.map some) ++
    a.kwonlyargs.zip a.kw_defaults

/-- The declared default of the parameter named `name` (outer `none` when no
such parameter exists; `some none` when it exists without a default). -/
def declDefaultOf (a : Arguments) (name : String) : Option (Option DExpr) :=
  ((declParams a).find? (fun p => p.1.arg == name)).map Prod.snd

/-- The default the scanning loop pairs with the first parameter named
`name` in its reversed iteration order (flattening zip padding and missing
keyword-only defaults into `none`). -/
def codeDefaultOf (a : Arguments) (name : String) : Option (Option DExpr) :=
  ((codePairs a).find? (fun p =>
    match p.1 with
    | some arg => arg.arg == name
    | none => false)).map (fun p => p.2.join)

/-- The number of violations one module contributes: the length of the
recorded error-line list of the transformer. -/
def moduleViolationCount (m : StmtList) : Except ScanErr Nat :=
  match visitStmts m with
  | .error e => .error e
  | .ok (_, errs, _) => .ok errs.length

/-- The total number of violations over a list of scanned files: the sum of
the per-file violation counts, with any exception propagated. -/
def totalViolationCount : List (String × StmtList) → Except ScanErr Nat
  | [] => .ok 0
  | (_, m) :: rest =>
    match moduleViolationCount m with
    | .error e => .error e
    | .ok n =>
      match totalViolationCount rest with
      | .error e => .error e
      | .ok k => .ok (n + k)

/- Concrete constructor signatures used to settle the claims. -/

/-- A constructor with positional-only `self, a` and a positional parameter
`deferrable` whose default is the canonical expected expression, all on
line 1. -/
def argsA : Arguments :=
  ⟨[⟨"self", 1⟩, ⟨"a", 1⟩], [⟨"deferrable", 1⟩], [], [], [⟨EXPECTED_DEFAULT, 1⟩]⟩

/-- A constructor with `self` and `deferrable` positional-only on line 1 and
a trailing positional parameter `a` with default `1` on line 2. -/
def argsB : Arguments :=
  ⟨[⟨"self", 1⟩, ⟨"deferrable", 1⟩], [⟨"a", 2⟩], [], [], [⟨"1", 2⟩]⟩

/-- `def __init__(self, a, /, deferrable=False): ...`, all on line 1. -/
def argsC : Arguments :=
  ⟨[⟨"self", 1⟩, ⟨"a", 1⟩], [⟨"deferrable", 1⟩], [], [], [⟨"False", 1⟩]⟩

/-- `def __init__(self, a=1, deferrable=False): ...`, all on line 1. -/
def argsD : Arguments :=
  ⟨[], [⟨"self", 1⟩, ⟨"a", 1⟩, ⟨"deferrable", 1⟩], [], [], [⟨"1", 1⟩, ⟨"False", 1⟩]⟩

/-- `argsD` after the rewrite performed by the script: the canonical
expression lands in the default slot of `a` while `deferrable` keeps
`False`. -/
def argsDFixed : Arguments :=
  { argsD with defaults := [⟨EXPECTED_DEFAULT, 1⟩, ⟨"False", 1⟩] }

/-- `def __init__(self, *, deferrable=False, x): ...` with `self` on line 1,
`deferrable` (default `False`) on line 2 and `x` (no default) on line 3. -/
def argsE : Arguments :=
  ⟨[], [⟨"self", 1⟩], [⟨"deferrable", 2⟩, ⟨"x", 3⟩], [some ⟨"False", 2⟩, none], []⟩

/-- `argsE` after the script rewrites the keyword-only slot of `deferrable`. -/
def argsEFixed : Arguments :=
  { argsE with kw_defaults := [some ⟨EXPECTED_DEFAULT, 1⟩, none] }

/-- `def __init__(self, deferrable, x): ...` with `self` on line 1,
`deferrable` on line 2 and `x` on line 3, none with a default. -/
def argsF : Arguments :=
  ⟨[], [⟨"self", 1⟩, ⟨"deferrable", 2⟩, ⟨"x", 3⟩], [], [], []⟩

/-- `def __init__(self, deferrable): ...`, all on line 1. -/
def argsG : Arguments := ⟨[], [⟨"self", 1⟩, ⟨"deferrable", 1⟩], [], [], []⟩

/-- `def __init__(self, deferrable=False): ...` with `self` on line 1 and
`deferrable` with its default on line 2. -/
def argsH : Arguments := ⟨[], [⟨"self", 1⟩, ⟨"deferrable", 2⟩], [], [], [⟨"False", 2⟩]⟩

/-- `argsH` after the script rewrites its single default slot. -/
def argsHFixed : Arguments := { argsH with defaults := [⟨EXPECTED_DEFAULT, 1⟩] }

/-- The argument record of a function taking only `self`. -/
def selfOnlyArgs : Arguments := ⟨[], [⟨"self", 1⟩], [], [], []⟩

/-- A module whose single statement is the constructor `argsD`. -/
def moduleD : StmtList := .cons (.functionDef "__init__" argsD .nil) .nil

/-- `moduleD` as rewritten by the first fix pass of the script. -/
def moduleDFixed : StmtList := .cons (.functionDef "__init__" argsDFixed .nil) .nil

/-- A module whose single statement is the constructor `argsE`. -/
def moduleE : StmtList := .cons (.functionDef "__init__" argsE .nil) .nil

/-- A module whose single statement is the constructor `argsG`. -/
def moduleG : StmtList := .cons (.functionDef "__init__" argsG .nil) .nil

/-- A module consisting of a factory function whose body holds a class `A`
whose constructor is `argsH`: the constructor sits inside a function body. -/
def moduleNested : StmtList :=
  .cons (.functionDef "factory" selfOnlyArgs
    (.cons (.classDef "A" (.cons (.functionDef "__init__" argsH .nil) .nil)) .nil)) .nil

/- Theorems. -/

/-- Whenever the scanning loop ends with an error index set, at least one
error line was recorded. -/
theorem scanLoop_snd_some_fst_ne_nil :
    ∀ (ps : List (Option Arg × Option (Option DExpr))) (i j : Nat),
      (scanLoop i ps).2 = some j → (scanLoop i ps).1 ≠ [] := by
  intro ps
  induction ps with
  | nil =>
    intro i j h
    simp [scanLoop] at h
  | cons p rest ih =>
    intro i j h
    obtain ⟨a?, d?⟩ := p
    cases a? with
    | none => exact ih (i + 1) j h
    | some argument =>
      by_cases hd : argument.arg = "deferrable"
      · cases d? with
        | none => simp [scanLoop, hd]
        | some od =>
          cases od with
          | none => simp [scanLoop, hd]
          | some d =>
            by_cases hv : _is_valid_deferrable_default d
            · simp only [scanLoop, hd, if_true, hv] at h ⊢
              exact ih (i + 1) j h
            · simp [scanLoop, hd, hv]
      · simp only [scanLoop, hd, if_false] at h ⊢
        exact ih (i + 1) j h

/-- Claim C1 (code-bug evidence): in
a constructor with positional-only `self, a` and a positional parameter
`deferrable` whose default is exactly the canonical expected expression
(`argsA`), the scan nevertheless records a violation
for it at line 1: the source reverses `args ++ posonlyargs ++ kwonlyargs`,
so with positional-only parameters present `deferrable` is paired with no
default at all. -/
theorem C1_canonical_default_still_flagged :
    declDefaultOf argsA "deferrable" = some (some ⟨EXPECTED_DEFAULT, 1⟩) ∧
    visitInit argsA = .ok (argsA, [1], false) ∧
    ([1] : List Nat) ≠ [] :=
  ⟨rfl, rfl, by decide⟩

/-- Claim C2 (code-bug evidence): in a constructor with positional-only
`self, deferrable` on line 1 and trailing positional `a=1` on line 2,
`deferrable` has no default in declaration order, so the claim requires one
violation at line 1 (the declaration line of the parameter); the code
instead pairs `deferrable` with the default `1` of `a` and records the
violation at line 2 (and then even overwrites the default slot of `a`). -/
theorem C2_violation_line_mismatch :
    (declParams argsB).find? (fun p => p.1.arg == "deferrable") =
      some (⟨"deferrable", 1⟩, none) ∧
    visitInit argsB =
      .ok ({ argsB with defaults := [⟨EXPECTED_DEFAULT, 1⟩] }, [2], true) ∧
    ([2] : List Nat) ≠ [1] :=
  ⟨rfl, rfl, by decide⟩

/-- Claim C3 (code-bug evidence): for
`def __init__(self, a, /, deferrable=False)` the claimed pairing puts the
positional default `False` on the trailing positional parameter
`deferrable`; the pairing built by the code (which reverses
`args ++ posonlyargs ++ kwonlyargs`) instead pairs `False` with the
positional-only parameter `a` and pairs `deferrable` with an absent
default. -/
theorem C3_pairing_misaligned_with_posonly :
    codePairs argsC =
      [(some ⟨"a", 1⟩, some (some ⟨"False", 1⟩)),
       (some ⟨"self", 1⟩, none),
       (some ⟨"deferrable", 1⟩, none)] ∧
    declParams argsC =
      [(⟨"self", 1⟩, none), (⟨"a", 1⟩, none),
       (⟨"deferrable", 1⟩, some ⟨"False", 1⟩)] ∧
    codeDefaultOf argsC "deferrable" = some none ∧
    declDefaultOf argsC "deferrable" = some (some ⟨"False", 1⟩) ∧
    codeDefaultOf argsC "deferrable" ≠ declDefaultOf argsC "deferrable" :=
  ⟨rfl, rfl, rfl, rfl, by decide⟩

/-- Claim C4 (code-bug evidence): for
`def __init__(self, a=1, deferrable=False)` the violation on `deferrable`
is classified fixable, but the positional branch negates the
already-negative index (`defaults[-(1 + new_index)]`) and writes the
canonical expression into `defaults[0]` — the slot of `a` — while the own
slot of `deferrable` keeps `False`. -/
theorem C4_fix_overwrites_wrong_slot :
    visitInit argsD = .ok (argsDFixed, [1], true) ∧
    argsDFixed.defaults = [⟨EXPECTED_DEFAULT, 1⟩, ⟨"False", 1⟩] ∧
    declDefaultOf argsDFixed "deferrable" = some (some ⟨"False", 1⟩) ∧
    declDefaultOf argsDFixed "a" = some (some ⟨EXPECTED_DEFAULT, 1⟩) :=
  ⟨rfl, rfl, rfl, rfl⟩

/-- Claim C5 (code-bug evidence): on a file containing
`def __init__(self, a=1, deferrable=False)` the first fix pass rewrites the
file (the canonical expression lands in the slot of `a`), yet re-scanning the
rewritten module still reports the same fixable `deferrable` violation, and
the second pass rewrites the file once more. -/
theorem C5_fix_pass_not_idempotent :
    iter_check_deferrable_default_errors "f" moduleD = .ok (["f:1"], some moduleDFixed) ∧
    iter_check_deferrable_default_errors "f" moduleDFixed =
      .ok (["f:1"], some moduleDFixed) ∧
    (["f:1"] : List String) ≠ [] :=
  ⟨rfl, rfl, by decide⟩

/-- Claim C8 (code-bug evidence): scanning the syntactically valid module
`def __init__(self, deferrable): ...` does not return the violation it
recorded (line 1, error index 0); the fix path instead raises an uncaught
IndexError, a third failure mode beyond I/O and parse errors. -/
theorem C8_scan_raises_index_error :
    iter_check_deferrable_default_errors "f" moduleG = .error .indexError ∧
    scanResult argsG = ([1], some 0) :=
  ⟨rfl, rfl⟩

/-- Claim C10: the fix path only overwrites existing default slots (a
successful Python item assignment never changes the list length), and for
`def __init__(self, deferrable)` — a positional `deferrable` without a
default that passes the fixability comparison `0 > 0` being false — the
positional-branch write indexes an empty defaults list, so the scan raises
IndexError instead of reporting the recorded violation. -/
theorem C10_fix_never_inserts_slot :
    (∀ (l : List DExpr) (i : Int) (v : DExpr) (l2 : List DExpr),
        pySet l i v = some l2 → l2.length = l.length) ∧
    scanResult argsG = ([1], some 0) ∧
    ¬ ((0 : Int) > (argsG.defaults.length : Int) + (argsG.kw_defaults.length : Int)) ∧
    visitInit argsG = .error .indexError := by
  refine ⟨?_, rfl, by decide, rfl⟩
  intro l i v l2 h
  unfold pySet at h
  split at h <;> dsimp only at h <;> split at h
  · cases h; simp
  · cases h
  · cases h; simp
  · cases h

/-- Witness for C10: a concrete in-range assignment, with the length
preservation obtained from the theorem. -/
theorem C10_fix_never_inserts_slot_witness :
    pySet [(⟨"False", 1⟩ : DExpr)] 0 ⟨EXPECTED_DEFAULT, 1⟩ =
      some [⟨EXPECTED_DEFAULT, 1⟩] ∧
    ([(⟨EXPECTED_DEFAULT, 1⟩ : DExpr)]).length = ([(⟨"False", 1⟩ : DExpr)]).length :=
  ⟨rfl, C10_fix_never_inserts_slot.1 [⟨"False", 1⟩] 0 ⟨EXPECTED_DEFAULT, 1⟩
    [⟨EXPECTED_DEFAULT, 1⟩] rfl⟩

/-- Counterexample to claim C6: in
`def __init__(self, *, deferrable=False, x)` the keyword-only parameter `x`
comes after `deferrable` in declaration order and has no default, yet the
scan reports the `deferrable` violation (line 2) AND rewrites the file
(the keyword-only slot of `deferrable` is overwritten), so the file is not left
unmodified. -/
theorem C6_counterexample_kwonly_fixed :
    declParams argsE =
      [(⟨"self", 1⟩, none), (⟨"deferrable", 2⟩, some ⟨"False", 2⟩),
       (⟨"x", 3⟩, none)] ∧
    iter_check_deferrable_default_errors "f" moduleE =
      .ok (["f:2"], some (.cons (.functionDef "__init__" argsEFixed .nil) .nil)) ∧
    (some (StmtList.cons (.functionDef "__init__" argsEFixed .nil) .nil) ≠
      (none : Option StmtList)) :=
  ⟨rfl, rfl, by simp⟩

/-- Claim C6 as amended: when the final error index of the scanning loop exceeds
the total number of default expressions (`deferrable` is positional and a
later positional parameter in declaration order has no default, as in
`def __init__(self, deferrable, other_required)`), the violation is
reported, the node is returned unchanged, and the file is not rewritten. -/
theorem C6_amended_unfixable_reported_unmodified
    (a : Arguments) (errs : List Nat) (i : Nat) (fn : String) (body : StmtList)
    (h : scanResult a = (errs, some i))
    (hgt : (i : Int) > (a.defaults.length : Int) + (a.kw_defaults.length : Int)) :
    visitInit a = .ok (a, errs, false) ∧ errs ≠ [] ∧
    iter_check_deferrable_default_errors fn
        (.cons (.functionDef "__init__" a body) .nil) =
      .ok (errs.map (fun l => fn ++ ":" ++ toString l), none) := by
  have h2 : scanLoop 0 (codePairs a) = (errs, some i) := h
  have hvisit : visitInit a = .ok (a, errs, false) := by
    unfold visitInit
    rw [h]
    simp [hgt]
  have hne : errs ≠ [] := by
    have := scanLoop_snd_some_fst_ne_nil (codePairs a) 0 i (by rw [h2])
    rw [h2] at this
    exact this
  refine ⟨hvisit, hne, ?_⟩
  simp [iter_check_deferrable_default_errors, visitStmts, visitStmt, hvisit]

/-- Witness for the amended C6 at `def __init__(self, deferrable, x)`:
the violation at line 2 is reported, nothing is fixed, and the file is left
as it was. -/
theorem C6_amended_witness :
    visitInit argsF = .ok (argsF, [2], false) ∧ ([2] : List Nat) ≠ [] ∧
    iter_check_deferrable_default_errors "f"
        (.cons (.functionDef "__init__" argsF .nil) .nil) =
      .ok (["f:2"], none) :=
  C6_amended_unfixable_reported_unmodified argsF [2] 1 "f" .nil rfl (by decide)

/-- Claim C7: the value `main` returns — which `sys.exit` turns into the
process exit code — equals the total number of violations found across all
scanned files (the sum of the per-file violation counts), whenever the scan
runs to completion; in particular it is zero exactly when no violations are
found. -/
theorem C7_exit_code_equals_total_violations (ms : List (String × StmtList)) :
    mainResult ms = totalViolationCount ms := by
  induction ms with
  | nil => rfl
  | cons fm rest ih =>
    obtain ⟨fn, m⟩ := fm
    unfold mainResult collectErrors totalViolationCount moduleViolationCount
      iter_check_deferrable_default_errors
    unfold mainResult at ih
    cases hv : visitStmts m with
    | error e => rfl
    | ok t =>
      obtain ⟨m2, errs, fx⟩ := t
      cases hr : collectErrors rest with
      | error e =>
        rw [hr] at ih
        simp only [Except.map] at ih
        rw [← ih]
        rfl
      | ok es =>
        rw [hr] at ih
        simp only [Except.map] at ih
        rw [← ih]
        simp [Except.map]

/-- Witness for C7 at a one-file list: the exit code and the total
violation count agree and are both 1. -/
theorem C7_exit_code_witness :
    mainResult [("f", moduleD)] = totalViolationCount [("f", moduleD)] ∧
    totalViolationCount [("f", moduleD)] = .ok 1 :=
  ⟨C7_exit_code_equals_total_violations [("f", moduleD)], rfl⟩

/-- Counterexample to claim C9: in a module whose only statement is a
function `factory` containing a class `A` whose constructor has the
violating default `deferrable=False`, the scan reports nothing — although
the very same constructor statement, visited directly, yields the violation
at line 2.  The function-definition visitor of the transformer never calls
`generic_visit`, so traversal stops at every function definition. -/
theorem C9_counterexample_nested_not_visited :
    iter_check_deferrable_default_errors "f" moduleNested = .ok ([], none) ∧
    visitStmt (.functionDef "__init__" argsH .nil) =
      .ok (.functionDef "__init__" argsHFixed .nil, [2], true) ∧
    ([2] : List Nat) ≠ [] :=
  ⟨rfl, rfl, by decide⟩

/-- Claim C9 as amended: the traversal is transparent to class nesting but
never descends into function bodies — a function definition not named
`__init__` contributes nothing and returns its body unvisited, an
`__init__` definition is processed through its arguments only (its body is
returned unvisited), and a class definition passes the results of its body
through unchanged. -/
theorem C9_amended_traversal :
    (∀ (n : String) (a : Arguments) (body : StmtList), n ≠ "__init__" →
      visitStmt (.functionDef n a body) = .ok (.functionDef n a body, [], false)) ∧
    (∀ (a : Arguments) (body : StmtList) (r : Arguments × List Nat × Bool),
      visitInit a = .ok r →
      visitStmt (.functionDef "__init__" a body) =
        .ok (.functionDef "__init__" r.1 body, r.2.1, r.2.2)) ∧
    (∀ (n : String) (body b : StmtList) (es : List Nat) (fx : Bool),
      visitStmts body = .ok (b, es, fx) →
      visitStmt (.classDef n body) = .ok (.classDef n b, es, fx)) := by
  refine ⟨fun n a body hn => ?_, fun a body r hr => ?_, fun n body b es fx hb => ?_⟩
  · simp [visitStmt, hn]
  · obtain ⟨a2, errs, fx⟩ := r
    simp [visitStmt, hr]
  · simp [visitStmt, hb]

/-- Witness for the amended C9: a concrete non-constructor function whose
body holds a violating constructor contributes nothing; a concrete
constructor is processed through its arguments; a concrete class passes its
violation of its body through. -/
theorem C9_amended_traversal_witness :
    visitStmt (.functionDef "factory" selfOnlyArgs
        (.cons (.functionDef "__init__" argsH .nil) .nil)) =
      .ok (.functionDef "factory" selfOnlyArgs
        (.cons (.functionDef "__init__" argsH .nil) .nil), [], false) ∧
    visitStmt (.functionDef "__init__" argsH .nil) =
      .ok (.functionDef "__init__" argsHFixed .nil, [2], true) ∧
    visitStmt (.classDef "A" (.cons (.functionDef "__init__" argsH .nil) .nil)) =
      .ok (.classDef "A" (.cons (.functionDef "__init__" argsHFixed .nil) .nil),
        [2], true) :=
  ⟨C9_amended_traversal.1 "factory" selfOnlyArgs
      (.cons (.functionDef "__init__" argsH .nil) .nil) (by decide),
   C9_amended_traversal.2.1 argsH .nil (argsHFixed, [2], true) rfl,
   C9_amended_traversal.2.2 "A" (.cons (.functionDef "__init__" argsH .nil) .nil)
      (.cons (.functionDef "__init__" argsHFixed .nil) .nil) [2] true rfl⟩

end CheckDeferrableDefault
